import Mathlib

/-!
Verification of the specification-model builder in
`troposphere_gen/specification.py` (classes `Attribute`, `Property`,
`Resource`).

The source parses JSON-shaped definition dicts.  We embed such dicts as the
inductive `Value` below (strings, booleans, and string-keyed maps, the only
shapes the parser inspects); a Python dict is an association list with unique
keys, and both the `in` test and subscripting correspond to first-match lookup
(`lookupV`).  Python exceptions (`KeyError`, `ValueError` from the
`update_type` setter, `TypeError` from subscripting a non-dict) are embedded
as `Except ParseError`.  The leaf type tags `PrimitiveType`, `Subproperty`,
`ListType`, `MapType` come from `troposphere_gen/types.py`, which is outside
the core; per the spec they are consumed as opaque value wrappers whose
constructors never fail, and are embedded as plain wrapper structures.

One deliberate simplification: when a sub-definition value inside an
`Attributes`/`Properties` map is not a dict, the embedding answers
`ParseError.typeError`.  For `Property` and for the `Attributes`/`Properties`
maps themselves this matches Python (subscripting or `.items()` on a
string/bool raises `TypeError`/`AttributeError`); for an `Attribute` whose
definition is a string, Python's substring-based `in` test could instead
succeed silently.  Every claim below quantifies over dict-shaped definitions,
where the two agree exactly.
-/

namespace TropoSpec

/-- JSON-shaped values as far as the parser inspects them: strings, booleans
and string-keyed maps (association lists, unique keys in practice). -/
inductive Value where
  | str (s : String)
  | bool (b : Bool)
  | dict (entries : List (String × Value))

/-- First-match association-list lookup: models both `key in d` (is the
result `some`?) and `d[key]` on a Python dict. -/
def lookupV : List (String × Value) → String → Option Value
  | [], _ => none
  | (k, v) :: rest, key => if k = key then some v else lookupV rest key

/-- Python `value == "s"` for a `Value`: true exactly on the equal string. -/
def isStr (v : Value) (s : String) : Bool :=
  match v with
  | .str t => t = s
  | _ => false

/-- Opaque primitive-type tag from `troposphere_gen.types`
(`PrimitiveType(value)`). -/
structure PrimitiveType where
  value : Value

/-- Opaque subproperty reference from `troposphere_gen.types`
(`Subproperty(value)`). -/
structure Subproperty where
  value : Value

/-- Item type stored inside a ListType/MapType: either a primitive tag or a
subproperty reference. -/
inductive ItemKind where
  | primitive (p : PrimitiveType)
  | sub (s : Subproperty)

/-- Model of `ListType(itemtype)` from `troposphere_gen.types`. -/
structure ListType where
  itemtype : ItemKind

/-- Model of `MapType(itemtype)` from `troposphere_gen.types`. -/
structure MapType where
  itemtype : ItemKind

/-- The union `Union[Subproperty, ListType, MapType]` of values the `type`
field of an Attribute can hold. -/
inductive AttrType where
  | sub (s : Subproperty)
  | list (l : ListType)
  | map (m : MapType)

/-- Errors the builders can raise: `KeyError(key)` from a missing dict key,
`ValueError` from the `update_type` setter (carrying the offending value,
as in `"Invalid update type: %s"`), and `TypeError` from treating a
non-dict value as a dict. -/
inductive ParseError where
  | keyError (key : String)
  | invalidUpdateType (value : Value)
  | typeError

/-- The `Attribute` class: `name` plus the four type fields initialised to
`None` in `Attribute.__init__`. -/
structure Attribute where
  name : String
  item_type : Option Subproperty
  primitive_item_type : Option PrimitiveType
  primitive_type : Option PrimitiveType
  type : Option AttrType

/-- The type-resolution logic of `Attribute.parse`: from the definition dict
it computes the pair (`primitive_type`, `type`).  Mirrors the source
branch for branch: a `PrimitiveType` key wins outright; otherwise a `Type`
key equal to `"List"`/`"Map"` wraps `PrimitiveItemType` (preferred) or
`ItemType`; any other `Type` value is a direct `Subproperty`; with no
branch taken both fields stay `None`.  Total: no branch raises. -/
def parseAttrType (attributedict : List (String × Value)) :
    Option PrimitiveType × Option AttrType :=
  match lookupV attributedict "PrimitiveType" with
  | some v => (some ⟨v⟩, none)
  | none =>
    match lookupV attributedict "Type" with
    | none => (none, none)
    | some t =>
      if isStr t "List" then
        match lookupV attributedict "PrimitiveItemType" with
        | some v => (none, some (.list ⟨.primitive ⟨v⟩⟩))
        | none =>
          match lookupV attributedict "ItemType" with
          | some v => (none, some (.list ⟨.sub ⟨v⟩⟩))
          | none => (none, none)
      else if isStr t "Map" then
        match lookupV attributedict "PrimitiveItemType" with
        | some v => (none, some (.map ⟨.primitive ⟨v⟩⟩))
        | none =>
          match lookupV attributedict "ItemType" with
          | some v => (none, some (.map ⟨.sub ⟨v⟩⟩))
          | none => (none, none)
      else
        (none, some (.sub ⟨t⟩))

/-- Construction `Attribute(name, attributedict)` on a dict: initialise every type field
to `None`, then run `Attribute.parse`, which only ever assigns
`primitive_type` and `type`. -/
def mkAttribute (name : String) (attributedict : List (String × Value)) :
    Attribute :=
  ⟨name, none, none, (parseAttrType attributedict).1,
    (parseAttrType attributedict).2⟩

/-- The `Property` class: the `Attribute` fields plus documentation,
duplicate-allowance, requiredness, update type (`_update_type`) and the
nested `properties` map, all initialised to `None`/empty in
`Property.__init__`.  Values are stored as the parser read them, so the
metadata fields hold raw `Value`s. -/
structure Property where
  name : String
  documentation : Option Value
  duplicate_allowed : Option Value
  required : Option Value
  update_type : Option Value
  properties : List (String × Property)
  item_type : Option Subproperty
  primitive_item_type : Option PrimitiveType
  primitive_type : Option PrimitiveType
  type : Option AttrType

/-- The valid-enumeration test of the `update_type` setter:
`update_type in ["Immutable", "Mutable", "Conditional"]`. -/
def validUpdateType (v : Value) : Bool :=
  isStr v "Immutable" || isStr v "Mutable" || isStr v "Conditional"

/-- The `update_type` property setter: stores a valid value unchanged and
raises `ValueError("Invalid update type: %s")` otherwise. -/
def setUpdateType (update_type : Value) : Except ParseError Value :=
  if validUpdateType update_type then .ok update_type
  else .error (.invalidUpdateType update_type)

/-- Size of a looked-up value is below the size of the whole dict; used for
termination of the recursive property parser. -/
theorem lookupV_sizeOf_lt {l : List (String × Value)} {key : String}
    {v : Value} (h : lookupV l key = some v) : sizeOf v < sizeOf l := by
  induction l with
  | nil => simp [lookupV] at h
  | cons hd tl ih =>
    obtain ⟨k, w⟩ := hd
    simp only [lookupV] at h
    split at h
    · cases h
      simp
      omega
    · have := ih h
      simp
      omega

mutual

/-- Construction `Property(name, propertydict)`: read `Documentation` (KeyError when
absent); when a `Properties` sub-map is present, recursively build the
sub-properties and return; otherwise read and validate `UpdateType`, read
`Required`, run the inherited `Attribute.parse` type resolution, and
capture `DuplicatesAllowed` when present.  A non-dict definition raises
`TypeError` when subscripted. -/
def parseProperty (name : String) (v : Value) : Except ParseError Property :=
  match v with
  | .str _ => .error .typeError
  | .bool _ => .error .typeError
  | .dict propertydict =>
    match lookupV propertydict "Documentation" with
    | none => .error (.keyError "Documentation")
    | some doc =>
      match hp : lookupV propertydict "Properties" with
      | some (.str _) => .error .typeError
      | some (.bool _) => .error .typeError
      | some (.dict subdict) =>
        match parseSubproperties subdict with
        | .error e => .error e
        | .ok subs =>
          .ok ⟨name, some doc, none, none, none, subs, none, none, none, none⟩
      | none =>
        match lookupV propertydict "UpdateType" with
        | none => .error (.keyError "UpdateType")
        | some utv =>
          match setUpdateType utv with
          | .error e => .error e
          | .ok ut =>
            match lookupV propertydict "Required" with
            | none => .error (.keyError "Required")
            | some req =>
              .ok ⟨name, some doc, lookupV propertydict "DuplicatesAllowed",
                some req, some ut, [], none, none,
                (parseAttrType propertydict).1, (parseAttrType propertydict).2⟩
termination_by sizeOf v
decreasing_by
  have h1 := lookupV_sizeOf_lt hp
  simp at h1 ⊢
  omega

/-- The loop `for name, subpropertydict in propertydict["Properties"].items()`
building one `Property` per entry; the first exception aborts the loop and
propagates. -/
def parseSubproperties (subdict : List (String × Value)) :
    Except ParseError (List (String × Property)) :=
  match subdict with
  | [] => .ok []
  | (n, sv) :: rest =>
    match parseProperty n sv with
    | .error e => .error e
    | .ok p =>
      match parseSubproperties rest with
      | .error e => .error e
      | .ok ps => .ok ((n, p) :: ps)
termination_by sizeOf subdict
decreasing_by
  all_goals simp
  all_goals omega

end

/-- The `Resource` class: name, documentation, and the built `attributes`
and `properties` maps. -/
structure Resource where
  name : String
  documentation : Option Value
  attributes : List (String × Attribute)
  properties : List (String × Property)

/-- The loop `for name, attributedict in resourcedict["Attributes"].items()`
building one `Attribute` per entry.  Attribute construction on a dict never
fails; a non-dict entry is a type error. -/
def parseAttributes : List (String × Value) →
    Except ParseError (List (String × Attribute))
  | [] => .ok []
  | (n, Value.dict d) :: rest =>
    (match parseAttributes rest with
      | .error e => .error e
      | .ok attrs => .ok ((n, mkAttribute n d) :: attrs))
  | (_, Value.str _) :: _ => .error .typeError
  | (_, Value.bool _) :: _ => .error .typeError

/-- Construction `Resource(name, resourcedict)`: read `Documentation`, then build every
attribute from the mandatory `Attributes` map, then every property from the
mandatory `Properties` map (`KeyError` on a missing key, `TypeError` on a
non-dict map). -/
def parseResource : String → Value → Except ParseError Resource
  | _, .str _ => .error .typeError
  | _, .bool _ => .error .typeError
  | name, .dict resourcedict =>
    match lookupV resourcedict "Documentation" with
    | none => .error (.keyError "Documentation")
    | some doc =>
      match lookupV resourcedict "Attributes" with
      | none => .error (.keyError "Attributes")
      | some (.str _) => .error .typeError
      | some (.bool _) => .error .typeError
      | some (.dict attrdict) =>
        match parseAttributes attrdict with
        | .error e => .error e
        | .ok attrs =>
          match lookupV resourcedict "Properties" with
          | none => .error (.keyError "Properties")
          | some (.str _) => .error .typeError
          | some (.bool _) => .error .typeError
          | some (.dict propdict) =>
            match parseSubproperties propdict with
            | .error e => .error e
            | .ok props => .ok ⟨name, some doc, attrs, props⟩

/-! ### Characterization lemmas for the parsers -/

theorem parseProperty_leaf (name : String) (pd : List (String × Value))
    (doc utv req : Value)
    (hdoc : lookupV pd "Documentation" = some doc)
    (hnp : lookupV pd "Properties" = none)
    (hut : lookupV pd "UpdateType" = some utv)
    (hval : validUpdateType utv = true)
    (hreq : lookupV pd "Required" = some req) :
    parseProperty name (.dict pd) =
      .ok ⟨name, some doc, lookupV pd "DuplicatesAllowed", some req, some utv,
        [], none, none, (parseAttrType pd).1, (parseAttrType pd).2⟩ := by
  unfold parseProperty
  rw [hdoc, hnp, hut, hreq]
  simp [setUpdateType, hval]

theorem parseProperty_container (name : String) (pd : List (String × Value))
    (doc : Value) (subdict : List (String × Value))
    (subs : List (String × Property))
    (hdoc : lookupV pd "Documentation" = some doc)
    (hps : lookupV pd "Properties" = some (.dict subdict))
    (hsubs : parseSubproperties subdict = .ok subs) :
    parseProperty name (.dict pd) =
      .ok ⟨name, some doc, none, none, none, subs, none, none, none, none⟩ := by
  unfold parseProperty
  rw [hdoc, hps]
  simp [hsubs]

theorem parseProperty_nodoc (name : String) (pd : List (String × Value))
    (hdoc : lookupV pd "Documentation" = none) :
    parseProperty name (.dict pd) = .error (.keyError "Documentation") := by
  unfold parseProperty
  rw [hdoc]

theorem parseProperty_container_err (name : String)
    (pd : List (String × Value)) (doc : Value)
    (subdict : List (String × Value)) (e : ParseError)
    (hdoc : lookupV pd "Documentation" = some doc)
    (hps : lookupV pd "Properties" = some (.dict subdict))
    (hsubs : parseSubproperties subdict = .error e) :
    parseProperty name (.dict pd) = .error e := by
  unfold parseProperty
  rw [hdoc, hps]
  simp [hsubs]

theorem parseProperty_noUpdateType (name : String)
    (pd : List (String × Value)) (doc : Value)
    (hdoc : lookupV pd "Documentation" = some doc)
    (hnp : lookupV pd "Properties" = none)
    (hut : lookupV pd "UpdateType" = none) :
    parseProperty name (.dict pd) = .error (.keyError "UpdateType") := by
  unfold parseProperty
  rw [hdoc, hnp, hut]

theorem parseProperty_badUpdateType (name : String)
    (pd : List (String × Value)) (doc utv : Value)
    (hdoc : lookupV pd "Documentation" = some doc)
    (hnp : lookupV pd "Properties" = none)
    (hut : lookupV pd "UpdateType" = some utv)
    (hval : validUpdateType utv = false) :
    parseProperty name (.dict pd) = .error (.invalidUpdateType utv) := by
  unfold parseProperty
  rw [hdoc, hnp, hut]
  simp [setUpdateType, hval]

theorem parseProperty_noRequired (name : String)
    (pd : List (String × Value)) (doc utv : Value)
    (hdoc : lookupV pd "Documentation" = some doc)
    (hnp : lookupV pd "Properties" = none)
    (hut : lookupV pd "UpdateType" = some utv)
    (hval : validUpdateType utv = true)
    (hreq : lookupV pd "Required" = none) :
    parseProperty name (.dict pd) = .error (.keyError "Required") := by
  unfold parseProperty
  rw [hdoc, hnp, hut, hreq]
  simp [setUpdateType, hval]

theorem setUpdateType_ok_inv (u w : Value) (h : setUpdateType u = .ok w) :
    validUpdateType u = true ∧ w = u := by
  unfold setUpdateType at h
  split at h
  · cases h
    simp_all
  · cases h

theorem parseSubproperties_nil : parseSubproperties [] = .ok [] := by
  unfold parseSubproperties
  rfl

theorem parseSubproperties_cons_ok (n : String) (sv : Value)
    (rest : List (String × Value)) (p : Property)
    (ps : List (String × Property))
    (h1 : parseProperty n sv = .ok p)
    (h2 : parseSubproperties rest = .ok ps) :
    parseSubproperties ((n, sv) :: rest) = .ok ((n, p) :: ps) := by
  unfold parseSubproperties
  simp [h1, h2]

theorem parseSubproperties_cons_err (n : String) (sv : Value)
    (rest : List (String × Value)) (e : ParseError)
    (h1 : parseProperty n sv = .error e) :
    parseSubproperties ((n, sv) :: rest) = .error e := by
  unfold parseSubproperties
  simp [h1]

theorem isStr_true_iff (v : Value) (s : String) :
    isStr v s = true ↔ v = .str s := by
  cases v <;> simp [isStr]

/-- Inversion: a successfully constructed Property came from a dict with a
`Documentation` key and took either the container branch or the leaf
branch, and its fields are exactly the ones that branch assigns. -/
theorem parseProperty_ok_inv (name : String) (v : Value) (p : Property)
    (h : parseProperty name v = .ok p) :
    ∃ pd doc, v = .dict pd ∧ lookupV pd "Documentation" = some doc ∧
      ((∃ subdict subs, lookupV pd "Properties" = some (.dict subdict) ∧
          parseSubproperties subdict = .ok subs ∧
          p = ⟨name, some doc, none, none, none, subs,
            none, none, none, none⟩)
       ∨ (∃ utv req, lookupV pd "Properties" = none ∧
          lookupV pd "UpdateType" = some utv ∧ validUpdateType utv = true ∧
          lookupV pd "Required" = some req ∧
          p = ⟨name, some doc, lookupV pd "DuplicatesAllowed", some req,
            some utv, [], none, none, (parseAttrType pd).1,
            (parseAttrType pd).2⟩)) := by
  cases v with
  | str s => unfold parseProperty at h; cases h
  | bool b => unfold parseProperty at h; cases h
  | dict pd =>
    unfold parseProperty at h
    refine ⟨pd, ?_⟩
    split at h
    · cases h
    · rename_i doc hdoc
      refine ⟨doc, rfl, hdoc, ?_⟩
      split at h
      · cases h
      · cases h
      · rename_i subdict hps
        split at h
        · cases h
        · rename_i subs hsubs
          cases h
          exact Or.inl ⟨subdict, subs, hps, hsubs, rfl⟩
      · rename_i hps
        split at h
        · cases h
        · rename_i utv hut
          split at h
          · cases h
          · rename_i ut hset
            obtain ⟨hval, hw⟩ := setUpdateType_ok_inv utv ut hset
            split at h
            · cases h
            · rename_i req hreq
              cases h
              exact Or.inr ⟨utv, req, hps, hut, hval, hreq, by rw [hw]⟩

/-- Inversion for the sub-property loop: on success the keys are exactly the
input keys in order, and every built entry comes from parsing the
corresponding sub-definition. -/
theorem parseSubproperties_ok_inv (l : List (String × Value))
    (ps : List (String × Property)) (h : parseSubproperties l = .ok ps) :
    List.map Prod.fst ps = List.map Prod.fst l ∧
      ∀ x ∈ ps, ∃ sv, (x.1, sv) ∈ l ∧ parseProperty x.1 sv = .ok x.2 := by
  induction l generalizing ps with
  | nil =>
    rw [parseSubproperties_nil] at h
    cases h
    simp
  | cons hd tl ih =>
    obtain ⟨n, sv⟩ := hd
    unfold parseSubproperties at h
    split at h
    · cases h
    · rename_i p hp
      split at h
      · cases h
      · rename_i ps2 hps2
        cases h
        obtain ⟨hkeys, hmem⟩ := ih ps2 hps2
        refine ⟨by simp [hkeys], ?_⟩
        intro x hx
        rcases List.mem_cons.mp hx with hx1 | hx2
        · subst hx1
          exact ⟨sv, List.mem_cons_self _ _, hp⟩
        · obtain ⟨sv2, hmem2, hp2⟩ := hmem x hx2
          exact ⟨sv2, List.mem_cons_of_mem _ hmem2, hp2⟩

/-- Inversion for the attribute loop: on success the keys are exactly the
input keys in order, and every built entry is `mkAttribute` of the
corresponding dict. -/
theorem parseAttributes_ok_inv (l : List (String × Value))
    (attrs : List (String × Attribute)) (h : parseAttributes l = .ok attrs) :
    List.map Prod.fst attrs = List.map Prod.fst l ∧
      ∀ x ∈ attrs, ∃ d, (x.1, Value.dict d) ∈ l ∧ x.2 = mkAttribute x.1 d := by
  induction l generalizing attrs with
  | nil =>
    unfold parseAttributes at h
    cases h
    simp
  | cons hd tl ih =>
    obtain ⟨n, av⟩ := hd
    cases av with
    | str s => unfold parseAttributes at h; cases h
    | bool b => unfold parseAttributes at h; cases h
    | dict d =>
      unfold parseAttributes at h
      split at h
      · cases h
      · rename_i attrs2 hattrs2
        cases h
        obtain ⟨hkeys, hmem⟩ := ih attrs2 hattrs2
        refine ⟨by simp [hkeys], ?_⟩
        intro x hx
        rcases List.mem_cons.mp hx with hx1 | hx2
        · subst hx1
          exact ⟨d, List.mem_cons_self _ _, rfl⟩
        · obtain ⟨d2, hmem2, hp2⟩ := hmem x hx2
          exact ⟨d2, List.mem_cons_of_mem _ hmem2, hp2⟩

theorem parseResource_ok_char (name : String) (rd : List (String × Value))
    (doc : Value) (ad pdict : List (String × Value))
    (attrs : List (String × Attribute)) (props : List (String × Property))
    (hdoc : lookupV rd "Documentation" = some doc)
    (hattr : lookupV rd "Attributes" = some (.dict ad))
    (has : parseAttributes ad = .ok attrs)
    (hprop : lookupV rd "Properties" = some (.dict pdict))
    (hps : parseSubproperties pdict = .ok props) :
    parseResource name (.dict rd) = .ok ⟨name, some doc, attrs, props⟩ := by
  simp only [parseResource]
  rw [hdoc, hattr]
  simp [has, hprop, hps]

theorem parseResource_nodoc (name : String) (rd : List (String × Value))
    (hdoc : lookupV rd "Documentation" = none) :
    parseResource name (.dict rd) = .error (.keyError "Documentation") := by
  simp only [parseResource]
  rw [hdoc]

theorem parseResource_noattrs (name : String) (rd : List (String × Value))
    (doc : Value)
    (hdoc : lookupV rd "Documentation" = some doc)
    (hattr : lookupV rd "Attributes" = none) :
    parseResource name (.dict rd) = .error (.keyError "Attributes") := by
  simp only [parseResource]
  rw [hdoc, hattr]

theorem parseResource_noprops (name : String) (rd : List (String × Value))
    (doc : Value) (ad : List (String × Value))
    (attrs : List (String × Attribute))
    (hdoc : lookupV rd "Documentation" = some doc)
    (hattr : lookupV rd "Attributes" = some (.dict ad))
    (has : parseAttributes ad = .ok attrs)
    (hprop : lookupV rd "Properties" = none) :
    parseResource name (.dict rd) = .error (.keyError "Properties") := by
  simp only [parseResource]
  rw [hdoc, hattr]
  simp [has, hprop]

/-- Inversion: a successfully built Resource came from a dict carrying
`Documentation`, a dict-valued `Attributes` and a dict-valued `Properties`,
and its two maps are the loop results on those dicts. -/
theorem parseResource_ok_inv (name : String) (v : Value) (r : Resource)
    (h : parseResource name v = .ok r) :
    ∃ rd doc ad pdict, v = .dict rd ∧
      lookupV rd "Documentation" = some doc ∧
      lookupV rd "Attributes" = some (.dict ad) ∧
      lookupV rd "Properties" = some (.dict pdict) ∧
      parseAttributes ad = .ok r.attributes ∧
      parseSubproperties pdict = .ok r.properties ∧
      r.name = name ∧ r.documentation = some doc := by
  cases v with
  | str s => simp only [parseResource] at h; exact Except.noConfusion h
  | bool b => simp only [parseResource] at h; exact Except.noConfusion h
  | dict rd =>
    simp only [parseResource] at h
    refine ⟨rd, ?_⟩
    split at h
    · cases h
    · rename_i doc hdoc
      refine ⟨doc, ?_⟩
      split at h
      · cases h
      · cases h
      · cases h
      · rename_i ad hattr
        split at h
        · cases h
        · rename_i attrs hattrs
          split at h
          · cases h
          · cases h
          · cases h
          · rename_i pdict hprop
            split at h
            · cases h
            · rename_i props hprops
              cases h
              exact ⟨ad, pdict, rfl, hdoc, hattr, hprop, hattrs, hprops,
                rfl, rfl⟩

/-- The resolver `Attribute.parse` sets at most one of the two type fields. -/
theorem parseAttrType_not_both (d : List (String × Value)) :
    (parseAttrType d).1 = none ∨ (parseAttrType d).2 = none := by
  unfold parseAttrType
  split
  · simp
  · split
    · simp
    · split
      · split
        · simp
        · split <;> simp
      · split
        · split
          · simp
          · split <;> simp
        · simp

/-- With neither a `PrimitiveType` nor a `Type` key, both type fields stay
unset. -/
theorem parseAttrType_none (d : List (String × Value))
    (h1 : lookupV d "PrimitiveType" = none)
    (h2 : lookupV d "Type" = none) :
    parseAttrType d = (none, none) := by
  unfold parseAttrType
  rw [h1, h2]

/-- A List/Map declaration with neither item-type key resolves to an unset
type rather than an error. -/
theorem parseAttrType_incomplete (d : List (String × Value)) (t : Value)
    (h1 : lookupV d "PrimitiveType" = none)
    (h2 : lookupV d "Type" = some t)
    (h3 : t = Value.str "List" ∨ t = Value.str "Map")
    (h4 : lookupV d "PrimitiveItemType" = none)
    (h5 : lookupV d "ItemType" = none) :
    parseAttrType d = (none, none) := by
  unfold parseAttrType
  rw [h1, h2]
  rcases h3 with h3 | h3 <;> subst h3 <;> simp [isStr, h4, h5]

/-! ### Well-formedness of built entities -/

/-- Field-level well-formedness of a built Property: documented; the two
fields no branch assigns are unset; at most one type field is set; and the
metadata fields follow the container/leaf dichotomy of `Property.parse`
(`update_type` set, valid, together with `required` on a leaf with no
sub-properties; everything unset on a container). -/
def propertyShapeOk (p : Property) : Bool :=
  p.documentation.isSome &&
  p.item_type.isNone && p.primitive_item_type.isNone &&
  !(p.primitive_type.isSome && p.type.isSome) &&
  (match p.update_type with
   | some u => validUpdateType u && p.required.isSome && p.properties.isEmpty
   | none => p.required.isNone && p.duplicate_allowed.isNone &&
       p.primitive_type.isNone && p.type.isNone)

mutual

/-- A Property and, recursively, all its sub-properties are well-formed. -/
def propertyConsistent (p : Property) : Bool :=
  propertyShapeOk p && subpropsConsistent p.properties
termination_by sizeOf p
decreasing_by
  cases p
  simp
  omega

/-- All properties of a name-Property list are well-formed. -/
def subpropsConsistent : List (String × Property) → Bool
  | [] => true
  | (_, q) :: rest => propertyConsistent q && subpropsConsistent rest
termination_by l => sizeOf l
decreasing_by
  all_goals simp
  all_goals omega

end

theorem subpropsConsistent_iff (l : List (String × Property)) :
    subpropsConsistent l = true ↔ ∀ x ∈ l, propertyConsistent x.2 = true := by
  induction l with
  | nil =>
    unfold subpropsConsistent
    simp
  | cons hd tl ih =>
    obtain ⟨n, q⟩ := hd
    unfold subpropsConsistent
    simp [ih]

/-- Field-level well-formedness of a built Attribute: the two never-assigned
fields are unset and at most one type field is set. -/
def attributeShapeOk (a : Attribute) : Bool :=
  a.item_type.isNone && a.primitive_item_type.isNone &&
    !(a.primitive_type.isSome && a.type.isSome)

/-- A built Resource is well-formed: documented, attributes well-formed, and
properties recursively well-formed. -/
def resourceConsistent (r : Resource) : Bool :=
  r.documentation.isSome &&
  r.attributes.all (fun x => attributeShapeOk x.2) &&
  subpropsConsistent r.properties

theorem mkAttribute_shapeOk (name : String) (d : List (String × Value)) :
    attributeShapeOk (mkAttribute name d) = true := by
  unfold attributeShapeOk mkAttribute
  rcases parseAttrType_not_both d with h | h <;> simp [h]

/-- Every successfully parsed Property is recursively well-formed. -/
theorem parseProperty_ok_consistent_aux (n : Nat) :
    ∀ (v : Value) (name : String) (p : Property), sizeOf v ≤ n →
      parseProperty name v = .ok p → propertyConsistent p = true := by
  induction n with
  | zero =>
    intro v name p hle h
    cases v <;> simp at hle
  | succ n ih =>
    intro v name p hle h
    obtain ⟨pd, doc, hv, hdoc, hbranch⟩ := parseProperty_ok_inv name v p h
    subst hv
    rcases hbranch with ⟨subdict, subs, hps, hsubs, hp⟩ |
      ⟨utv, req, hnp, hut, hval, hreq, hp⟩
    · subst hp
      unfold propertyConsistent
      rw [Bool.and_eq_true]
      constructor
      · simp [propertyShapeOk]
      · rw [subpropsConsistent_iff]
        intro x hx
        obtain ⟨hkeys, hmem⟩ := parseSubproperties_ok_inv subdict subs hsubs
        obtain ⟨sv, hsvmem, hparse⟩ := hmem x hx
        have h1 := lookupV_sizeOf_lt hps
        have h2 : sizeOf sv < sizeOf subdict := by
          have h3 := List.sizeOf_lt_of_mem hsvmem
          simp at h3
          omega
        apply ih sv x.1 x.2 ?_ hparse
        simp at hle h1
        omega
    · subst hp
      unfold propertyConsistent
      rw [Bool.and_eq_true]
      refine ⟨?_, by rw [subpropsConsistent_iff]; simp⟩
      rcases parseAttrType_not_both pd with h1 | h1 <;>
        simp [propertyShapeOk, hval, h1]

theorem parseProperty_ok_consistent (v : Value) (name : String) (p : Property)
    (h : parseProperty name v = .ok p) : propertyConsistent p = true :=
  parseProperty_ok_consistent_aux (sizeOf v) v name p (Nat.le_refl _) h

/-- Every successfully parsed Resource is well-formed. -/
theorem parseResource_ok_consistent (v : Value) (name : String) (r : Resource)
    (h : parseResource name v = .ok r) : resourceConsistent r = true := by
  obtain ⟨rd, doc, ad, pdict, hv, hdoc, hattr, hprop, hattrs, hprops,
    hname, hrdoc⟩ := parseResource_ok_inv name v r h
  unfold resourceConsistent
  rw [Bool.and_eq_true, Bool.and_eq_true]
  refine ⟨⟨by simp [hrdoc], ?_⟩, ?_⟩
  · rw [List.all_eq_true]
    intro x hx
    obtain ⟨hkeys, hmem⟩ := parseAttributes_ok_inv ad r.attributes hattrs
    obtain ⟨d, hdmem, hx2⟩ := hmem x hx
    rw [hx2]
    exact mkAttribute_shapeOk x.1 d
  · rw [subpropsConsistent_iff]
    intro x hx
    obtain ⟨hkeys, hmem⟩ := parseSubproperties_ok_inv pdict r.properties hprops
    obtain ⟨sv, hsvmem, hparse⟩ := hmem x hx
    exact parseProperty_ok_consistent sv x.1 x.2 hparse

/-! ### Claims -/

theorem isStr_false_of_ne (t : Value) (s : String) (h : t ≠ Value.str s) :
    isStr t s = false := by
  rw [Bool.eq_false_iff]
  intro hc
  exact h ((isStr_true_iff t s).mp hc)

/-- C1: For every definition dict, Attribute type resolution follows the
fixed precedence: a present `PrimitiveType` key sets `primitive_type` to
that value with `type` unset regardless of any `Type` key; otherwise
`Type = "List"` (case-sensitive) gives a ListType of the primitive
`PrimitiveItemType` when present, else a ListType of a Subproperty of
`ItemType` when present; `Type = "Map"` the same with MapType; any other
`Type` value gives a direct Subproperty reference. -/
theorem claim_C1 (d : List (String × Value)) :
    (∀ v, lookupV d "PrimitiveType" = some v →
      parseAttrType d = (some ⟨v⟩, none)) ∧
    (lookupV d "PrimitiveType" = none →
      ∀ t, lookupV d "Type" = some t →
        ((t = Value.str "List" →
            (∀ v, lookupV d "PrimitiveItemType" = some v →
              parseAttrType d = (none, some (.list ⟨.primitive ⟨v⟩⟩))) ∧
            (lookupV d "PrimitiveItemType" = none →
              ∀ v, lookupV d "ItemType" = some v →
                parseAttrType d = (none, some (.list ⟨.sub ⟨v⟩⟩)))) ∧
         (t = Value.str "Map" →
            (∀ v, lookupV d "PrimitiveItemType" = some v →
              parseAttrType d = (none, some (.map ⟨.primitive ⟨v⟩⟩))) ∧
            (lookupV d "PrimitiveItemType" = none →
              ∀ v, lookupV d "ItemType" = some v →
                parseAttrType d = (none, some (.map ⟨.sub ⟨v⟩⟩)))) ∧
         (t ≠ Value.str "List" → t ≠ Value.str "Map" →
            parseAttrType d = (none, some (.sub ⟨t⟩))))) := by
  constructor
  · intro v hv
    unfold parseAttrType
    rw [hv]
  · intro h1 t h2
    refine ⟨?_, ?_, ?_⟩
    · intro ht
      subst ht
      constructor
      · intro v hv
        unfold parseAttrType
        rw [h1, h2, hv]
        simp [isStr]
      · intro hpit v hv
        unfold parseAttrType
        rw [h1, h2, hpit, hv]
        simp [isStr]
    · intro ht
      subst ht
      constructor
      · intro v hv
        unfold parseAttrType
        rw [h1, h2, hv]
        simp [isStr]
      · intro hpit v hv
        unfold parseAttrType
        rw [h1, h2, hpit, hv]
        simp [isStr]
    · intro hne1 hne2
      unfold parseAttrType
      rw [h1, h2]
      simp [isStr_false_of_ne t _ hne1, isStr_false_of_ne t _ hne2]

/-- Witness for C1 at concrete inputs, one per precedence branch. -/
theorem claim_C1_witness :
    parseAttrType [("PrimitiveType", Value.str "String"),
      ("Type", Value.str "List")] = (some ⟨Value.str "String"⟩, none) ∧
    parseAttrType [("Type", Value.str "List"),
      ("ItemType", Value.str "Tag")] =
      (none, some (.list ⟨.sub ⟨Value.str "Tag"⟩⟩)) ∧
    parseAttrType [("Type", Value.str "Map"),
      ("PrimitiveItemType", Value.str "Integer")] =
      (none, some (.map ⟨.primitive ⟨Value.str "Integer"⟩⟩)) ∧
    parseAttrType [("Type", Value.str "Tag")] =
      (none, some (.sub ⟨Value.str "Tag"⟩)) := by
  refine ⟨(claim_C1 _).1 _ rfl, ?_, ?_, ?_⟩
  · exact (((claim_C1 [("Type", Value.str "List"),
      ("ItemType", Value.str "Tag")]).2 rfl _ rfl).1 rfl).2 rfl _ rfl
  · exact (((claim_C1 [("Type", Value.str "Map"),
      ("PrimitiveItemType", Value.str "Integer")]).2 rfl _ rfl).2.1 rfl).1 _ rfl
  · refine ((claim_C1 [("Type", Value.str "Tag")]).2 rfl _ rfl).2.2 ?_ ?_ <;>
      · intro hc
        injection hc with hs
        simp at hs

/-- C2: For every property definition dict that contains a `Properties`
sub-map (whose recursive build succeeds), the constructed Property has one
entry per sub-map key, each recursively built as a Property under the same
name, and its `required`, `update_type`, `duplicate_allowed`,
`primitive_type` and `type` fields all remain unset — regardless of any
other keys (such as `Required` or `UpdateType`) present alongside
`Properties`. -/
theorem claim_C2 (name : String) (pd subdict : List (String × Value))
    (doc : Value) (subs : List (String × Property))
    (hdoc : lookupV pd "Documentation" = some doc)
    (hps : lookupV pd "Properties" = some (.dict subdict))
    (hsubs : parseSubproperties subdict = .ok subs) :
    parseProperty name (.dict pd) =
      .ok ⟨name, some doc, none, none, none, subs, none, none, none, none⟩ ∧
    List.map Prod.fst subs = List.map Prod.fst subdict ∧
    ∀ x ∈ subs, ∃ sv, (x.1, sv) ∈ subdict ∧ parseProperty x.1 sv = .ok x.2 := by
  refine ⟨parseProperty_container name pd doc subdict subs hdoc hps hsubs,
    (parseSubproperties_ok_inv subdict subs hsubs).1,
    (parseSubproperties_ok_inv subdict subs hsubs).2⟩

/-- Witness for C2: a container definition carrying `Required` and
`UpdateType` alongside `Properties`; both are ignored and stay unset. -/
theorem claim_C2_witness :
    parseProperty "Config" (.dict [("Documentation", Value.str "d"),
      ("Required", Value.bool true), ("UpdateType", Value.str "Foo"),
      ("Properties", Value.dict [("Sub", Value.dict
        [("Documentation", Value.str "s"),
         ("UpdateType", Value.str "Mutable"),
         ("Required", Value.bool false),
         ("PrimitiveType", Value.str "Integer")])])]) =
      .ok ⟨"Config", some (Value.str "d"), none, none, none,
        [("Sub", ⟨"Sub", some (Value.str "s"), none, some (Value.bool false),
          some (Value.str "Mutable"), [], none, none,
          some ⟨Value.str "Integer"⟩, none⟩)], none, none, none, none⟩ := by
  have hsub : parseProperty "Sub" (Value.dict
      [("Documentation", Value.str "s"), ("UpdateType", Value.str "Mutable"),
       ("Required", Value.bool false),
       ("PrimitiveType", Value.str "Integer")]) =
      .ok ⟨"Sub", some (Value.str "s"), none, some (Value.bool false),
        some (Value.str "Mutable"), [], none, none,
        some ⟨Value.str "Integer"⟩, none⟩ :=
    parseProperty_leaf "Sub" _ _ _ _ rfl rfl rfl rfl rfl
  have hsubs := parseSubproperties_cons_ok "Sub" _ [] _ [] hsub
    parseSubproperties_nil
  exact (claim_C2 "Config" [("Documentation", Value.str "d"),
    ("Required", Value.bool true), ("UpdateType", Value.str "Foo"),
    ("Properties", Value.dict [("Sub", Value.dict
      [("Documentation", Value.str "s"),
       ("UpdateType", Value.str "Mutable"),
       ("Required", Value.bool false),
       ("PrimitiveType", Value.str "Integer")])])]
    _ (Value.str "d") _ rfl rfl hsubs).1

/-- C3: `UpdateType` outside {Immutable, Mutable, Conditional} always fails
construction with an error carrying the offending value, and no Property
is returned; each of the three valid values always passes the setter
unchanged, and a leaf construction with a valid `UpdateType` succeeds with
the value retrievable unchanged via `update_type`. -/
theorem claim_C3 :
    (∀ u : Value, validUpdateType u = true ↔
      (u = Value.str "Immutable" ∨ u = Value.str "Mutable" ∨
       u = Value.str "Conditional")) ∧
    (∀ u : Value, validUpdateType u = false →
      setUpdateType u = .error (.invalidUpdateType u)) ∧
    (∀ u : Value, validUpdateType u = true → setUpdateType u = .ok u) ∧
    (∀ name pd doc u, lookupV pd "Documentation" = some doc →
      lookupV pd "Properties" = none →
      lookupV pd "UpdateType" = some u → validUpdateType u = false →
      parseProperty name (.dict pd) = .error (.invalidUpdateType u)) ∧
    (∀ name pd doc u req, lookupV pd "Documentation" = some doc →
      lookupV pd "Properties" = none →
      lookupV pd "UpdateType" = some u → validUpdateType u = true →
      lookupV pd "Required" = some req →
      ∃ p, parseProperty name (.dict pd) = .ok p ∧
        p.update_type = some u) := by
  refine ⟨?_, ?_, ?_, ?_, ?_⟩
  · intro u
    cases u <;> simp [validUpdateType, isStr, or_assoc]
  · intro u hu
    unfold setUpdateType
    rw [hu]
    rfl
  · intro u hu
    unfold setUpdateType
    rw [hu]
    rfl
  · intro name pd doc u hdoc hnp hut hval
    exact parseProperty_badUpdateType name pd doc u hdoc hnp hut hval
  · intro name pd doc u req hdoc hnp hut hval hreq
    exact ⟨_, parseProperty_leaf name pd doc u req hdoc hnp hut hval hreq,
      rfl⟩

/-- Witness for C3: `UpdateType: "Foo"` fails with the offending value;
`UpdateType: "Conditional"` succeeds and is retrievable unchanged. -/
theorem claim_C3_witness :
    validUpdateType (Value.str "Conditional") = true ∧
    setUpdateType (Value.str "Foo") =
      .error (.invalidUpdateType (Value.str "Foo")) ∧
    parseProperty "Port" (.dict [("Documentation", Value.str "d"),
      ("UpdateType", Value.str "Foo"), ("Required", Value.bool true)]) =
      .error (.invalidUpdateType (Value.str "Foo")) ∧
    (∃ p, parseProperty "Port" (.dict [("Documentation", Value.str "d"),
      ("UpdateType", Value.str "Conditional"),
      ("Required", Value.bool true)]) = .ok p ∧
      p.update_type = some (Value.str "Conditional")) := by
  refine ⟨(claim_C3.1 _).mpr (Or.inr (Or.inr rfl)), claim_C3.2.1 _ rfl,
    claim_C3.2.2.2.1 "Port" _ (Value.str "d") _ rfl rfl rfl rfl,
    claim_C3.2.2.2.2 "Port" _ (Value.str "d") _ (Value.bool true)
      rfl rfl rfl rfl rfl⟩

/-- C5: a non-container property definition with `Documentation` and a valid
`UpdateType` builds a Property whose `required` and `documentation` copy
the definition, whose `primitive_type`/`type` come from the Attribute
Resolver branch logic, and whose `duplicate_allowed` is the
`DuplicatesAllowed` value when that key is present and stays unset
(distinct from false) when it is not. -/
theorem claim_C5 (name : String) (pd : List (String × Value))
    (doc u req : Value)
    (hdoc : lookupV pd "Documentation" = some doc)
    (hnp : lookupV pd "Properties" = none)
    (hut : lookupV pd "UpdateType" = some u)
    (hval : validUpdateType u = true)
    (hreq : lookupV pd "Required" = some req) :
    parseProperty name (.dict pd) =
      .ok ⟨name, some doc, lookupV pd "DuplicatesAllowed", some req, some u,
        [], none, none, (parseAttrType pd).1, (parseAttrType pd).2⟩ := by
  exact parseProperty_leaf name pd doc u req hdoc hnp hut hval hreq

/-- Witness for C5: the spec scenario — `Documentation: "d"`,
`Type: "List"`, `PrimitiveItemType: "String"`, `UpdateType: "Mutable"`,
`Required: true` yields a Mutable, required, List-of-primitive-String
Property with `duplicate_allowed` unset. -/
theorem claim_C5_witness :
    parseProperty "Tags" (.dict [("Documentation", Value.str "d"),
      ("Type", Value.str "List"), ("PrimitiveItemType", Value.str "String"),
      ("UpdateType", Value.str "Mutable"), ("Required", Value.bool true)]) =
      .ok ⟨"Tags", some (Value.str "d"), none, some (Value.bool true),
        some (Value.str "Mutable"), [], none, none, none,
        some (.list ⟨.primitive ⟨Value.str "String"⟩⟩)⟩ :=
  claim_C5 "Tags" _ _ _ _ rfl rfl rfl rfl rfl

/-- C4: construction fails with a missing-field error exactly when a
mandatory key is absent — `Documentation` on any property definition,
`UpdateType`/`Required` on a non-container property definition (taking the
checks in source order, with `UpdateType` valid when present, the invalid
case being C3's separate error class), and `Documentation`, `Attributes`,
`Properties` on a resource definition — and succeeds when they are all
present (given the sub-builds succeed), so the error surfaces to the
caller and aborts the enclosing build. -/
theorem claim_C4 :
    (∀ name pd, lookupV pd "Documentation" = none →
      parseProperty name (.dict pd) = .error (.keyError "Documentation")) ∧
    (∀ name pd doc, lookupV pd "Documentation" = some doc →
      lookupV pd "Properties" = none →
      lookupV pd "UpdateType" = none →
      parseProperty name (.dict pd) = .error (.keyError "UpdateType")) ∧
    (∀ name pd doc u, lookupV pd "Documentation" = some doc →
      lookupV pd "Properties" = none →
      lookupV pd "UpdateType" = some u → validUpdateType u = true →
      lookupV pd "Required" = none →
      parseProperty name (.dict pd) = .error (.keyError "Required")) ∧
    (∀ name pd doc u req, lookupV pd "Documentation" = some doc →
      lookupV pd "Properties" = none →
      lookupV pd "UpdateType" = some u → validUpdateType u = true →
      lookupV pd "Required" = some req →
      ∃ p, parseProperty name (.dict pd) = .ok p) ∧
    (∀ name pd doc subdict subs, lookupV pd "Documentation" = some doc →
      lookupV pd "Properties" = some (.dict subdict) →
      parseSubproperties subdict = .ok subs →
      ∃ p, parseProperty name (.dict pd) = .ok p) ∧
    (∀ name rd, lookupV rd "Documentation" = none →
      parseResource name (.dict rd) = .error (.keyError "Documentation")) ∧
    (∀ name rd doc, lookupV rd "Documentation" = some doc →
      lookupV rd "Attributes" = none →
      parseResource name (.dict rd) = .error (.keyError "Attributes")) ∧
    (∀ name rd doc ad attrs, lookupV rd "Documentation" = some doc →
      lookupV rd "Attributes" = some (.dict ad) →
      parseAttributes ad = .ok attrs →
      lookupV rd "Properties" = none →
      parseResource name (.dict rd) = .error (.keyError "Properties")) ∧
    (∀ name rd doc ad attrs pdict props,
      lookupV rd "Documentation" = some doc →
      lookupV rd "Attributes" = some (.dict ad) →
      parseAttributes ad = .ok attrs →
      lookupV rd "Properties" = some (.dict pdict) →
      parseSubproperties pdict = .ok props →
      ∃ r, parseResource name (.dict rd) = .ok r) := by
  refine ⟨?_, ?_, ?_, ?_, ?_, ?_, ?_, ?_, ?_⟩
  · exact parseProperty_nodoc
  · exact parseProperty_noUpdateType
  · exact parseProperty_noRequired
  · intro name pd doc u req hdoc hnp hut hval hreq
    exact ⟨_, parseProperty_leaf name pd doc u req hdoc hnp hut hval hreq⟩
  · intro name pd doc subdict subs hdoc hps hsubs
    exact ⟨_, parseProperty_container name pd doc subdict subs hdoc hps hsubs⟩
  · exact parseResource_nodoc
  · exact parseResource_noattrs
  · exact parseResource_noprops
  · intro name rd doc ad attrs pdict props hdoc hattr has hprop hps
    exact ⟨_, parseResource_ok_char name rd doc ad pdict attrs props
      hdoc hattr has hprop hps⟩

/-- Witness for C4: a leaf property missing `Required` fails with that key,
a resource missing `Properties` fails with that key, and an empty property
definition fails on `Documentation`. -/
theorem claim_C4_witness :
    parseProperty "P" (.dict [("Documentation", Value.str "d"),
      ("UpdateType", Value.str "Immutable")]) =
      .error (.keyError "Required") ∧
    parseResource "R" (.dict [("Documentation", Value.str "rd"),
      ("Attributes", Value.dict [("Arn", Value.dict
        [("PrimitiveType", Value.str "String")])])]) =
      .error (.keyError "Properties") ∧
    parseProperty "Q" (.dict []) = .error (.keyError "Documentation") := by
  refine ⟨claim_C4.2.2.1 "P" _ (Value.str "d") (Value.str "Immutable")
      rfl rfl rfl rfl rfl, ?_, claim_C4.1 "Q" [] rfl⟩
  exact claim_C4.2.2.2.2.2.2.2.1 "R" _ (Value.str "rd")
    [("Arn", Value.dict [("PrimitiveType", Value.str "String")])]
    [("Arn", mkAttribute "Arn" [("PrimitiveType", Value.str "String")])]
    rfl rfl rfl rfl

/-- C6: Attribute type resolution never raises (the embedding of
`Attribute.parse` on a dict is a total function, and attribute
construction inside a resource always succeeds on a dict): a List or Map
declaration with neither `PrimitiveItemType` nor `ItemType`, and a
definition with neither a `PrimitiveType` nor a `Type` key, both resolve
to `primitive_type` and `type` unset. -/
theorem claim_C6 (name : String) (d : List (String × Value)) :
    (∀ t, lookupV d "PrimitiveType" = none →
      lookupV d "Type" = some t →
      (t = Value.str "List" ∨ t = Value.str "Map") →
      lookupV d "PrimitiveItemType" = none →
      lookupV d "ItemType" = none →
      (mkAttribute name d).primitive_type = none ∧
        (mkAttribute name d).type = none) ∧
    (lookupV d "PrimitiveType" = none → lookupV d "Type" = none →
      (mkAttribute name d).primitive_type = none ∧
        (mkAttribute name d).type = none) := by
  constructor
  · intro t h1 h2 h3 h4 h5
    have := parseAttrType_incomplete d t h1 h2 h3 h4 h5
    unfold mkAttribute
    rw [this]
    exact ⟨rfl, rfl⟩
  · intro h1 h2
    have := parseAttrType_none d h1 h2
    unfold mkAttribute
    rw [this]
    exact ⟨rfl, rfl⟩

/-- Witness for C6: an incomplete List declaration and a fully typeless
definition both build typeless Attributes without error. -/
theorem claim_C6_witness :
    (mkAttribute "A" [("Type", Value.str "List")]).primitive_type = none ∧
    (mkAttribute "A" [("Type", Value.str "List")]).type = none ∧
    (mkAttribute "B" [("Documentation", Value.str "x")]).primitive_type =
      none ∧
    (mkAttribute "B" [("Documentation", Value.str "x")]).type = none := by
  obtain ⟨h1, h2⟩ := (claim_C6 "A" [("Type", Value.str "List")]).1
    (Value.str "List") rfl rfl (Or.inl rfl) rfl rfl
  obtain ⟨h3, h4⟩ := (claim_C6 "B" [("Documentation", Value.str "x")]).2
    rfl rfl
  exact ⟨h1, h2, h3, h4⟩

/-- C7: a successfully built Resource has exactly one `attributes` entry per
`Attributes` key and one `properties` entry per `Properties` key, keyed by
the same names (in order), hence with matching counts. -/
theorem claim_C7 (name : String) (v : Value) (r : Resource)
    (rd ad pdict : List (String × Value))
    (hv : v = .dict rd)
    (hattr : lookupV rd "Attributes" = some (.dict ad))
    (hprop : lookupV rd "Properties" = some (.dict pdict))
    (h : parseResource name v = .ok r) :
    List.map Prod.fst r.attributes = List.map Prod.fst ad ∧
    List.map Prod.fst r.properties = List.map Prod.fst pdict ∧
    r.attributes.length = ad.length ∧
    r.properties.length = pdict.length := by
  subst hv
  obtain ⟨rd2, doc, ad2, pdict2, hv2, hdoc2, hattr2, hprop2, hattrs2,
    hprops2, hname, hrdoc⟩ := parseResource_ok_inv name _ r h
  injection hv2 with hrd
  subst hrd
  rw [hattr] at hattr2
  rw [hprop] at hprop2
  injection hattr2 with hattr2
  injection hattr2 with hattr2
  injection hprop2 with hprop2
  injection hprop2 with hprop2
  subst hattr2
  subst hprop2
  have hka := (parseAttributes_ok_inv ad r.attributes hattrs2).1
  have hkp := (parseSubproperties_ok_inv pdict r.properties hprops2).1
  refine ⟨hka, hkp, ?_, ?_⟩
  · have := congrArg List.length hka
    simpa using this
  · have := congrArg List.length hkp
    simpa using this

/-- Witness for C7: a resource with two attributes and one property yields
maps keyed `["Arn", "Id"]` and `["Port"]` of lengths 2 and 1. -/
theorem claim_C7_witness :
    ∃ r, parseResource "R" (.dict [("Documentation", Value.str "rd"),
      ("Attributes", Value.dict [("Arn", Value.dict
        [("PrimitiveType", Value.str "String")]),
        ("Id", Value.dict [("PrimitiveType", Value.str "Integer")])]),
      ("Properties", Value.dict [("Port", Value.dict
        [("Documentation", Value.str "pd"),
         ("UpdateType", Value.str "Immutable"),
         ("Required", Value.bool true)])])]) = .ok r ∧
    List.map Prod.fst r.attributes = ["Arn", "Id"] ∧
    List.map Prod.fst r.properties = ["Port"] ∧
    r.attributes.length = 2 ∧ r.properties.length = 1 := by
  have hport : parseProperty "Port" (Value.dict
      [("Documentation", Value.str "pd"),
       ("UpdateType", Value.str "Immutable"),
       ("Required", Value.bool true)]) =
      .ok ⟨"Port", some (Value.str "pd"), none, some (Value.bool true),
        some (Value.str "Immutable"), [], none, none, none, none⟩ :=
    parseProperty_leaf "Port" _ _ _ _ rfl rfl rfl rfl rfl
  have hsubs := parseSubproperties_cons_ok "Port" _ [] _ []
    hport parseSubproperties_nil
  have hres := parseResource_ok_char "R"
    [("Documentation", Value.str "rd"),
     ("Attributes", Value.dict [("Arn", Value.dict
       [("PrimitiveType", Value.str "String")]),
       ("Id", Value.dict [("PrimitiveType", Value.str "Integer")])]),
     ("Properties", Value.dict [("Port", Value.dict
       [("Documentation", Value.str "pd"),
        ("UpdateType", Value.str "Immutable"),
        ("Required", Value.bool true)])])]
    (Value.str "rd") _ _ _ _ rfl rfl rfl rfl hsubs
  have hc := claim_C7 "R" _ _
    [("Documentation", Value.str "rd"),
     ("Attributes", Value.dict [("Arn", Value.dict
       [("PrimitiveType", Value.str "String")]),
       ("Id", Value.dict [("PrimitiveType", Value.str "Integer")])]),
     ("Properties", Value.dict [("Port", Value.dict
       [("Documentation", Value.str "pd"),
        ("UpdateType", Value.str "Immutable"),
        ("Required", Value.bool true)])])]
    [("Arn", Value.dict [("PrimitiveType", Value.str "String")]),
     ("Id", Value.dict [("PrimitiveType", Value.str "Integer")])]
    [("Port", Value.dict [("Documentation", Value.str "pd"),
      ("UpdateType", Value.str "Immutable"),
      ("Required", Value.bool true)])]
    rfl rfl rfl hres
  exact ⟨_, hres, hc.1, hc.2.1, hc.2.2.1, hc.2.2.2⟩

/-- C8: every built Attribute and Property has at most one of
`primitive_type` and `type` set, and with neither a primitive-type key nor
a `Type` key both remain unset. -/
theorem claim_C8 :
    (∀ name d, (mkAttribute name d).primitive_type = none ∨
      (mkAttribute name d).type = none) ∧
    (∀ name v p, parseProperty name v = .ok p →
      p.primitive_type = none ∨ p.type = none) ∧
    (∀ name d, lookupV d "PrimitiveType" = none →
      lookupV d "Type" = none →
      (mkAttribute name d).primitive_type = none ∧
        (mkAttribute name d).type = none) := by
  refine ⟨?_, ?_, ?_⟩
  · intro name d
    exact parseAttrType_not_both d
  · intro name v p h
    obtain ⟨pd, doc, hv, hdoc, hbranch⟩ := parseProperty_ok_inv name v p h
    rcases hbranch with ⟨subdict, subs, hps, hsubs, hp⟩ |
      ⟨utv, req, hnp, hut, hval, hreq, hp⟩
    · subst hp
      exact Or.inl rfl
    · subst hp
      exact parseAttrType_not_both pd
  · intro name d h1 h2
    have := parseAttrType_none d h1 h2
    unfold mkAttribute
    rw [this]
    exact ⟨rfl, rfl⟩

/-- Witness for C8 on a leaf property that carries both a `Type` and (per
precedence) resolves only `primitive_type`. -/
theorem claim_C8_witness :
    parseProperty "S" (.dict [("Documentation", Value.str "d"),
      ("UpdateType", Value.str "Mutable"), ("Required", Value.bool false),
      ("PrimitiveType", Value.str "Json"),
      ("Type", Value.str "Custom")]) =
      .ok ⟨"S", some (Value.str "d"), none, some (Value.bool false),
        some (Value.str "Mutable"), [], none, none,
        some ⟨Value.str "Json"⟩, none⟩ ∧
    ((⟨"S", some (Value.str "d"), none, some (Value.bool false),
        some (Value.str "Mutable"), [], none, none,
        some ⟨Value.str "Json"⟩, none⟩ : Property).primitive_type = none ∨
      (⟨"S", some (Value.str "d"), none, some (Value.bool false),
        some (Value.str "Mutable"), [], none, none,
        some ⟨Value.str "Json"⟩, none⟩ : Property).type = none) := by
  have h : parseProperty "S" (.dict [("Documentation", Value.str "d"),
      ("UpdateType", Value.str "Mutable"), ("Required", Value.bool false),
      ("PrimitiveType", Value.str "Json"),
      ("Type", Value.str "Custom")]) =
      .ok ⟨"S", some (Value.str "d"), none, some (Value.bool false),
        some (Value.str "Mutable"), [], none, none,
        some ⟨Value.str "Json"⟩, none⟩ :=
    parseProperty_leaf "S" _ _ _ _ rfl rfl rfl rfl rfl
  exact ⟨h, claim_C8.2.1 "S" _ _ h⟩

/-- C9: construction is all-or-nothing — for every definition value, either
the Property (resp. Resource) builder returns an error and no entity, or
it returns a single entity that is recursively well-formed (documented,
container/leaf dichotomy respected, valid update type where set, at most
one type field set, never-assigned fields unset). -/
theorem claim_C9 :
    (∀ name v, (∃ e, parseProperty name v = .error e) ∨
      (∃ p, parseProperty name v = .ok p ∧ propertyConsistent p = true)) ∧
    (∀ name v, (∃ e, parseResource name v = .error e) ∨
      (∃ r, parseResource name v = .ok r ∧ resourceConsistent r = true)) := by
  constructor
  · intro name v
    cases h : parseProperty name v with
    | error e => exact Or.inl ⟨e, rfl⟩
    | ok p => exact Or.inr ⟨p, rfl, parseProperty_ok_consistent v name p h⟩
  · intro name v
    cases h : parseResource name v with
    | error e => exact Or.inl ⟨e, rfl⟩
    | ok r => exact Or.inr ⟨r, rfl, parseResource_ok_consistent v name r h⟩

/-- C10: in every built Attribute and Property the `item_type` and
`primitive_item_type` fields stay `None` — they are initialised but no
parse branch assigns them — and the resolved item type of a List/Map
lives only inside the ListType/MapType wrapper stored in `type`. -/
theorem claim_C10 :
    (∀ name d, (mkAttribute name d).item_type = none ∧
      (mkAttribute name d).primitive_item_type = none) ∧
    (∀ name v p, parseProperty name v = .ok p →
      p.item_type = none ∧ p.primitive_item_type = none) ∧
    (∀ d v, lookupV d "PrimitiveType" = none →
      lookupV d "Type" = some (Value.str "Map") →
      lookupV d "PrimitiveItemType" = none →
      lookupV d "ItemType" = some v →
      (parseAttrType d).1 = none ∧
      (parseAttrType d).2 = some (.map ⟨.sub ⟨v⟩⟩)) := by
  refine ⟨?_, ?_, ?_⟩
  · intro name d
    exact ⟨rfl, rfl⟩
  · intro name v p h
    obtain ⟨pd, doc, hv, hdoc, hbranch⟩ := parseProperty_ok_inv name v p h
    rcases hbranch with ⟨subdict, subs, hps, hsubs, hp⟩ |
      ⟨utv, req, hnp, hut, hval, hreq, hp⟩ <;> subst hp <;> exact ⟨rfl, rfl⟩
  · intro d v h1 h2 h3 h4
    unfold parseAttrType
    rw [h1, h2, h3, h4]
    simp [isStr]

/-- Witness for C10 on a built Map-typed property: both never-assigned
fields are unset and the item type sits inside the MapType wrapper. -/
theorem claim_C10_witness :
    ∃ p, parseProperty "M" (.dict [("Documentation", Value.str "d"),
      ("UpdateType", Value.str "Conditional"), ("Required", Value.bool true),
      ("Type", Value.str "Map"), ("ItemType", Value.str "Tag")]) = .ok p ∧
      p.item_type = none ∧ p.primitive_item_type = none := by
  have h : parseProperty "M" (.dict [("Documentation", Value.str "d"),
      ("UpdateType", Value.str "Conditional"), ("Required", Value.bool true),
      ("Type", Value.str "Map"), ("ItemType", Value.str "Tag")]) =
      .ok ⟨"M", some (Value.str "d"), none, some (Value.bool true),
        some (Value.str "Conditional"), [], none, none, none,
        some (.map ⟨.sub ⟨Value.str "Tag"⟩⟩)⟩ :=
    parseProperty_leaf "M" _ _ _ _ rfl rfl rfl rfl rfl
  exact ⟨_, h, claim_C10.2.1 "M" _ _ h⟩

end TropoSpec
